import Mathlib

/-!
Verification of the forecast-request pipeline of the
Investment_Prediction_System repository (src/main2.py).

Timestamps are modelled as day counts since 1970-01-01 (the values carried
by tz-naive pandas timestamps, at daily granularity).  The external parsers
`pd.to_datetime` and `pd.to_numeric(errors='coerce')` are library calls; a
raw record therefore carries their outcome: the date field as
`Except String Nat` (`.error msg` when `pd.to_datetime` would raise with
message `msg`), and the nav field as `Option ℚ` (`none` when numeric
coercion yields NaN, which `dropna` removes).  Values are rationals.
-/

/-- Year of a day count since 1970-01-01, following the proleptic Gregorian
civil-from-days algorithm (what `pandas .dt.year` computes for tz-naive
daily timestamps). -/
def yearOfDay (z : Nat) : Nat :=
  let z' := z + 719468
  let era := z' / 146097
  let doe := z' % 146097
  let yoe := (doe - doe / 1460 + doe / 36524 - doe / 146096) / 365
  let y := yoe + era * 400
  let doy := doe - (365 * yoe + yoe / 4 - yoe / 100)
  let mp := (5 * doy + 2) / 153
  let m := if mp < 10 then mp + 3 else mp - 9
  if m ≤ 2 then y + 1 else y

/-- Day count since 1970-01-01 of a civil date (year ≥ 1970), the inverse
direction of `yearOfDay`; used only to build concrete test dates. -/
def daysFromCivil (y : Nat) (m : Nat) (d : Nat) : Nat :=
  let y' := if m ≤ 2 then y - 1 else y
  let era := y' / 400
  let yoe := y' % 400
  let doy := (153 * (if 2 < m then m - 3 else m + 9) + 2) / 5 + d - 1
  let doe := yoe * 365 + yoe / 4 - yoe / 100 + doy
  era * 146097 + doe - 719468

/-- One row of the canonical two-column series (`ds`, `y`) fed to the
forecasting model. -/
structure Point where
  ds : Nat
  y : ℚ
  deriving DecidableEq, Repr

/-- One raw mutual-fund record of the provider response's `data` array,
carrying the outcomes of the two external coercions applied to it:
`date` is the `pd.to_datetime` outcome for the date field (a day count, or
the exception message when parsing raises), `nav` is the
`pd.to_numeric(errors='coerce')` outcome for the nav field (`none` when the
coercion produces NaN, later removed by `dropna`). -/
structure RawRecord where
  date : Except String Nat
  nav : Option ℚ
  deriving Repr

/-- What reaches `fetch_mutual_fund_data` from the outside world: either an
exception raised by `requests.get`, `response.json()` or the `data` lookup
(carrying `str(e)`), or a well-formed response's `data` array. -/
inductive MFResponse where
  | exn (msg : String)
  | ok (records : List RawRecord)
  deriving Repr

/-- Column-wise `pd.to_datetime` over the date field: returns the
(day, nav) rows when every date parses, and raises the first failing
record's exception message otherwise. -/
def parseAllDates : List RawRecord → Except String (List (Nat × Option ℚ))
  | [] => Except.ok []
  | r :: rs =>
    match r.date with
    | Except.error e => Except.error e
    | Except.ok d => (parseAllDates rs).map (fun rest => (d, r.nav) :: rest)

/-- The rows that survive normalization: date parsed and nav coerced to a
number (`dropna` removes the rest). -/
def validRows (records : List RawRecord) : List Point :=
  records.filterMap (fun r =>
    match r.date, r.nav with
    | Except.ok d, some v => some ⟨d, v⟩
    | _, _ => none)

/-- Shallow embedding of `fetch_mutual_fund_data` (src/main2.py lines 9-29):
empty `data` check, `pd.to_datetime` on the date column (raising on failure,
caught by the surrounding `except`), numeric coercion plus `dropna` on nav,
minimum-length check, with every raised exception turned into
`(None, str(e))`. -/
def fetch_mutual_fund_data (resp : MFResponse) : Option (List Point) × Option String :=
  match resp with
  | MFResponse.exn msg => (none, some msg)
  | MFResponse.ok records =>
    if records.isEmpty then
      (none, some "No data available for the specified mutual fund code.")
    else
      match parseAllDates records with
      | Except.error e => (none, some e)
      | Except.ok rows =>
        let df := rows.filterMap (fun dv => dv.2.map (fun y => Point.mk dv.1 y))
        if df.length < 2 then
          (none, some "Not enough data points for prediction.")
        else
          (some df, none)

/-- One row of the forecast table produced by `model.predict`. -/
structure ForecastRow where
  ds : Nat
  yhat : ℚ
  yhat_lower : ℚ
  yhat_upper : ℚ
  deriving DecidableEq, Repr

/-- The filter of src/main2.py lines 99 and 145 generalized over the cutoff
year: `forecast[forecast['ds'].dt.year >= cutoff]`. -/
def filterByCutoff (cutoff : Nat) (forecast : List ForecastRow) : List ForecastRow :=
  forecast.filter (fun r => cutoff ≤ yearOfDay r.ds)

/-- Shallow embedding of `forecast_filtered` (src/main2.py lines 99 and 145):
`forecast[forecast['ds'].dt.year >= 2024]`. -/
def forecast_filtered (forecast : List ForecastRow) : List ForecastRow :=
  filterByCutoff 2024 forecast

/-- Maximum of a list of day counts (`history_dates.max()` inside the
external `make_future_dataframe`). -/
def historyMax : List Nat → Option Nat
  | [] => none
  | x :: xs =>
    match historyMax xs with
    | none => some x
    | some m => some (Nat.max x m)

/-- Models the external library call `model.make_future_dataframe(periods)`
with its default daily frequency and `include_history=True`: the historical
`ds` values followed by the next `periods` consecutive days after the last
(maximal) historical day. -/
def make_future_dataframe (history : List Nat) (periods : Nat) : List Nat :=
  match historyMax history with
  | none => []
  | some last => history ++ (List.range periods).map (fun i => last + 1 + i)

/-- Seasonality mode of a Prophet model. -/
inductive SeasonalityMode where
  | additive
  | multiplicative
  deriving DecidableEq, Repr

/-- A yearly/weekly/daily seasonality argument of the Prophet constructor. -/
inductive SeasonalityToggle where
  | auto
  | enabled
  | disabled
  deriving DecidableEq, Repr

/-- The holiday table built by the external `make_holidays_df` call, kept
symbolic as its two arguments (its contents never matter to the pipeline
logic under verification). -/
structure HolidayTable where
  year_list : List Nat
  country : String
  deriving DecidableEq, Repr

/-- The configuration state of a Prophet model object, with the library's
constructor defaults (additive seasonality, changepoint_prior_scale 0.05,
all three seasonal toggles `auto`, no holidays, no extra seasonalities). -/
structure ProphetModel where
  seasonality_mode : SeasonalityMode := SeasonalityMode.additive
  changepoint_prior_scale : ℚ := 0.05
  yearly_seasonality : SeasonalityToggle := SeasonalityToggle.auto
  weekly_seasonality : SeasonalityToggle := SeasonalityToggle.auto
  daily_seasonality : SeasonalityToggle := SeasonalityToggle.auto
  holidays : Option HolidayTable := none
  extra_seasonalities : List (String × ℚ × Nat) := []
  deriving DecidableEq, Repr

/-- `model.add_seasonality(name=nm, period=p, fourier_order=k)`. -/
def add_seasonality (m : ProphetModel) (nm : String) (p : ℚ) (k : Nat) : ProphetModel :=
  { m with extra_seasonalities := m.extra_seasonalities ++ [(nm, p, k)] }

/-- The model object on which `.fit` is called in the stock path
(src/main2.py lines 77-92), reproducing the successive rebindings of the
`model` variable: the fully configured construction at lines 77-87 is
shadowed at line 91 by `Prophet(holidays=holidays)` before `fit` runs. -/
def stock_model_at_fit : ProphetModel :=
  let model : ProphetModel :=
    { seasonality_mode := SeasonalityMode.multiplicative
      changepoint_prior_scale := 0.05
      yearly_seasonality := SeasonalityToggle.enabled
      weekly_seasonality := SeasonalityToggle.enabled
      daily_seasonality := SeasonalityToggle.disabled }
  let model := add_seasonality model "monthly" 30.5 5
  let model := add_seasonality model "weekly" 7 3
  let holidays : HolidayTable := ⟨[2021, 2022, 2023, 2024], "IN"⟩
  let model : ProphetModel := { holidays := some holidays }
  model

/-- The model object on which `.fit` is called in the mutual-fund path
(src/main2.py lines 127-138): as in the stock path, the configured
construction at lines 127-133 is shadowed at line 137 by
`Prophet(holidays=holidays)` before `fit` runs. -/
def mf_model_at_fit : ProphetModel :=
  let model : ProphetModel :=
    { seasonality_mode := SeasonalityMode.multiplicative
      changepoint_prior_scale := 0.05
      yearly_seasonality := SeasonalityToggle.enabled
      weekly_seasonality := SeasonalityToggle.enabled
      daily_seasonality := SeasonalityToggle.disabled }
  let holidays : HolidayTable := ⟨[2021, 2022, 2023, 2024], "IN"⟩
  let model : ProphetModel := { holidays := some holidays }
  model

/-- Calendar sanity check: 2024-01-01 is epoch day 19723 and its year is
2024. -/
theorem calendar_jan1_2024 : daysFromCivil 2024 1 1 = 19723 ∧ yearOfDay 19723 = 2024 := by
  decide

/-- Calendar sanity check: 2023-12-31 is epoch day 19722, still year 2023,
and the leap day 2024-02-29 falls in year 2024. -/
theorem calendar_boundary :
    daysFromCivil 2023 12 31 = 19722 ∧ yearOfDay 19722 = 2023 ∧
    yearOfDay (daysFromCivil 2024 2 29) = 2024 := by
  decide

/-- Concrete raw records for the spec's Normalizer scenario:
(2023-01-01, 100) and (2023-01-02, non-numeric nav). -/
def scenarioC3records : List RawRecord :=
  [⟨Except.ok 19358, some 100⟩, ⟨Except.ok 19359, none⟩]

/-- Concrete raw records with one unparseable timestamp in the middle and
two rows that parse fully. -/
def cexC7records : List RawRecord :=
  [⟨Except.ok 19358, some 100⟩, ⟨Except.error "bad date", some 101⟩,
   ⟨Except.ok 19360, some 102⟩]

/-- When every record's date parses, `parseAllDates` succeeds and the rows
surviving the nav coercion plus `dropna` are exactly `validRows`. -/
theorem parseAllDates_ok (records : List RawRecord)
    (h : ∀ r ∈ records, ∃ d, r.date = Except.ok d) :
    ∃ rows, parseAllDates records = Except.ok rows ∧
      rows.filterMap (fun dv => dv.2.map (fun y => Point.mk dv.1 y)) = validRows records := by
  induction records with
  | nil => exact ⟨[], rfl, rfl⟩
  | cons r rs ih =>
    obtain ⟨d, hd⟩ := h r (List.mem_cons_self r rs)
    obtain ⟨rows, hrows, hfm⟩ := ih (fun x hx => h x (List.mem_cons_of_mem r hx))
    refine ⟨(d, r.nav) :: rows, ?_, ?_⟩
    · simp [parseAllDates, hd, hrows, Except.map]
    · cases hnav : r.nav with
      | none => simp [List.filterMap_cons, hnav, hfm, validRows, hd]
      | some v => simp [List.filterMap_cons, hnav, hfm, validRows, hd]

/-- If `parseAllDates` succeeds then every record's date parsed. -/
theorem parseAllDates_ok_dates (records : List RawRecord) (rows : List (Nat × Option ℚ))
    (h : parseAllDates records = Except.ok rows) :
    ∀ r ∈ records, ∃ d, r.date = Except.ok d := by
  induction records generalizing rows with
  | nil => intro r hr; cases hr
  | cons r rs ih =>
    intro x hx
    rcases List.mem_cons.mp hx with rfl | hx
    · cases hdate : x.date with
      | error e => rw [parseAllDates, hdate] at h; cases h
      | ok d => exact ⟨d, rfl⟩
    · cases hdate : r.date with
      | error e => rw [parseAllDates, hdate] at h; cases h
      | ok d =>
        rw [parseAllDates, hdate] at h
        cases hrest : parseAllDates rs with
        | error e => rw [hrest] at h; cases h
        | ok rest => exact ih rest hrest x hx

/-- C4: a mutual-fund provider response whose data field is the empty array
makes `fetch_mutual_fund_data` return the no-data failure message (the
spec's `NoDataError`) and no series. -/
theorem C4_empty_data_is_no_data_error :
    fetch_mutual_fund_data (MFResponse.ok []) =
      (none, some "No data available for the specified mutual fund code.") := rfl

/-- C3: on a nonempty record sequence whose dates all parse, the fetch
coerces the nav field, drops exactly the rows whose coercion fails
(`validRows`), and returns the insufficient-data failure message (the
spec's `InsufficientDataError`) precisely when fewer than 2 rows survive,
the surviving series otherwise. -/
theorem C3_drop_and_insufficient (records : List RawRecord)
    (hne : records ≠ [])
    (hdates : ∀ r ∈ records, ∃ d, r.date = Except.ok d) :
    ((validRows records).length < 2 →
      fetch_mutual_fund_data (MFResponse.ok records) =
        (none, some "Not enough data points for prediction.")) ∧
    (2 ≤ (validRows records).length →
      fetch_mutual_fund_data (MFResponse.ok records) =
        (some (validRows records), none)) := by
  obtain ⟨rows, hrows, hfm⟩ := parseAllDates_ok records hdates
  have hempty : records.isEmpty = false := by
    cases records with
    | nil => exact absurd rfl hne
    | cons r rs => rfl
  constructor
  · intro hlt
    simp only [fetch_mutual_fund_data, hempty, hrows, hfm]
    simp [hfm, hlt]
  · intro hge
    simp only [fetch_mutual_fund_data, hempty, hrows, hfm]
    simp [hfm, Nat.not_lt.mpr hge]

/-- C3 witness: the spec scenario [(2023-01-01, 100), (2023-01-02, bad)]
drops the second row, leaving 1 < 2 rows, and fails with the
insufficient-data message. -/
theorem C3_drop_and_insufficient_witness :
    fetch_mutual_fund_data (MFResponse.ok scenarioC3records) =
      (none, some "Not enough data points for prediction.") :=
  (C3_drop_and_insufficient scenarioC3records
    (by simp [scenarioC3records])
    (by
      intro r hr
      simp only [scenarioC3records, List.mem_cons, List.not_mem_nil, or_false] at hr
      rcases hr with rfl | rfl
      · exact ⟨19358, rfl⟩
      · exact ⟨19359, rfl⟩)).1 (by decide)

/-- C7 counterexample: a record sequence with one unparseable timestamp and
two fully valid rows.  Were the bad-timestamp row dropped as the claim
states, 2 valid rows would remain and a series would be returned; instead
`pd.to_datetime` raises, the exception is caught, and the whole fetch fails
with `(None, str(e))`. -/
theorem C7_bad_timestamp_counterexample :
    (validRows cexC7records).length = 2 ∧
    fetch_mutual_fund_data (MFResponse.ok cexC7records) = (none, some "bad date") :=
  ⟨rfl, rfl⟩

/-- C7 (amended): a row with an unparseable timestamp is not dropped — its
presence makes the whole fetch fail, returning no series and an error
message, regardless of how many valid rows remain. -/
theorem C7_bad_timestamp_fails_fetch (records : List RawRecord)
    (hbad : ∃ r ∈ records, ∃ e, r.date = Except.error e) :
    ∃ m, fetch_mutual_fund_data (MFResponse.ok records) = (none, some m) := by
  obtain ⟨r, hr, e, he⟩ := hbad
  have hempty : records.isEmpty = false := by
    cases records with
    | nil => cases hr
    | cons x xs => rfl
  cases hparse : parseAllDates records with
  | error e' =>
    exact ⟨e', by simp only [fetch_mutual_fund_data, hempty, hparse, Bool.false_eq_true,
      if_false]⟩
  | ok rows =>
    obtain ⟨d, hd⟩ := parseAllDates_ok_dates records rows hparse r hr
    rw [he] at hd
    cases hd

/-- C7 witness for the amended claim: on the concrete sequence with a bad
middle timestamp the fetch returns no series and some error message. -/
theorem C7_bad_timestamp_fails_fetch_witness :
    ∃ m, fetch_mutual_fund_data (MFResponse.ok cexC7records) = (none, some m) :=
  C7_bad_timestamp_fails_fetch cexC7records
    ⟨⟨Except.error "bad date", some 101⟩, by simp [cexC7records], "bad date", rfl⟩

/-- C9: normalization (the whole fetch) is a pure function of the raw
response — identical inputs yield identical outputs, rows, order and
success/failure outcome included. -/
theorem C9_normalization_deterministic (r₁ r₂ : MFResponse) (h : r₁ = r₂) :
    fetch_mutual_fund_data r₁ = fetch_mutual_fund_data r₂ := by rw [h]

/-- C9 witness at a concrete response. -/
theorem C9_normalization_deterministic_witness :
    fetch_mutual_fund_data (MFResponse.ok scenarioC3records) =
      fetch_mutual_fund_data (MFResponse.ok scenarioC3records) :=
  C9_normalization_deterministic (MFResponse.ok scenarioC3records)
    (MFResponse.ok scenarioC3records) rfl

/-- C10 counterexample: a caught exception whose string representation is
empty (Python `str(e)` of an exception raised with no arguments) is passed
through unchecked, so the failure message is the empty string, not a
non-empty one as the claim states. -/
theorem C10_empty_message_counterexample :
    fetch_mutual_fund_data (MFResponse.exn "") = (none, some "") ∧
    String.length "" = 0 :=
  ⟨rfl, rfl⟩

/-- C10 (amended): the fetch never propagates an exception and always
returns a pair with exactly one component present: either a series of at
least 2 rows of coerced numeric values and no message, or no series and a
message — the message being empty exactly when a caught exception's string
representation is empty. -/
theorem C10_exclusive_pair (resp : MFResponse) :
    (∃ rows, fetch_mutual_fund_data resp = (some rows, none) ∧ 2 ≤ rows.length) ∨
    (∃ m, fetch_mutual_fund_data resp = (none, some m)) := by
  cases resp with
  | exn msg => exact Or.inr ⟨msg, rfl⟩
  | ok records =>
    cases hempty : records.isEmpty with
    | true =>
      exact Or.inr ⟨"No data available for the specified mutual fund code.",
        by simp only [fetch_mutual_fund_data, hempty, if_true]⟩
    | false =>
      cases hparse : parseAllDates records with
      | error e =>
        exact Or.inr ⟨e, by simp only [fetch_mutual_fund_data, hempty,
          Bool.false_eq_true, if_false, hparse]⟩
      | ok rows =>
        by_cases hlen :
            (rows.filterMap (fun dv => dv.2.map (fun y => Point.mk dv.1 y))).length < 2
        · exact Or.inr ⟨"Not enough data points for prediction.",
            by simp only [fetch_mutual_fund_data, hempty, Bool.false_eq_true, if_false,
              hparse]; simp [hlen]⟩
        · refine Or.inl ⟨rows.filterMap (fun dv => dv.2.map (fun y => Point.mk dv.1 y)),
            ?_, Nat.not_lt.mp hlen⟩
          simp only [fetch_mutual_fund_data, hempty, Bool.false_eq_true, if_false, hparse]
          simp [hlen]

/-- C1: the model object actually fitted (after the rebinding at lines 91
and 137 of src/main2.py) is a fresh `Prophet(holidays=holidays)` carrying
the constructor defaults — additive seasonality, all seasonal toggles
`auto`, no extra seasonalities — not the multiplicative/enabled/disabled
configuration built at lines 77-87 and 127-133, which is discarded. -/
theorem C1_fitted_model_is_default_with_holidays :
    stock_model_at_fit = { holidays := some ⟨[2021, 2022, 2023, 2024], "IN"⟩ } ∧
    mf_model_at_fit = { holidays := some ⟨[2021, 2022, 2023, 2024], "IN"⟩ } ∧
    stock_model_at_fit.seasonality_mode ≠ SeasonalityMode.multiplicative ∧
    stock_model_at_fit.yearly_seasonality ≠ SeasonalityToggle.enabled ∧
    stock_model_at_fit.weekly_seasonality ≠ SeasonalityToggle.enabled ∧
    stock_model_at_fit.daily_seasonality ≠ SeasonalityToggle.disabled ∧
    stock_model_at_fit.changepoint_prior_scale = 0.05 :=
  ⟨rfl, rfl, by decide, by decide, by decide, by decide, rfl⟩

/-- A concrete forecast table straddling the 2024 boundary
(2023-12-31 = day 19722, 2024-01-01 = day 19723). -/
def sampleForecast : List ForecastRow :=
  [⟨19721, 1, 0, 2⟩, ⟨19722, 1, 0, 2⟩, ⟨19723, 1, 0, 2⟩, ⟨19724, 1, 0, 2⟩]

/-- C2: `forecast_filtered` returns exactly the forecast rows whose
timestamp's year is ≥ 2024 — a sublist of the input (original ascending
order, untransformed rows), containing each row with its original
multiplicity exactly when its year reaches the cutoff. -/
theorem C2_filter_exact (f : List ForecastRow) :
    List.Sublist (forecast_filtered f) f ∧
    (∀ r : ForecastRow, r ∈ forecast_filtered f ↔ (r ∈ f ∧ 2024 ≤ yearOfDay r.ds)) ∧
    (∀ r : ForecastRow,
      (forecast_filtered f).count r = if 2024 ≤ yearOfDay r.ds then f.count r else 0) := by
  refine ⟨List.filter_sublist f, ?_, ?_⟩
  · intro r
    simp [forecast_filtered, filterByCutoff, List.mem_filter]
  · intro r
    by_cases h : 2024 ≤ yearOfDay r.ds
    · rw [if_pos h]
      show (List.filter (fun r => decide (2024 ≤ yearOfDay r.ds)) f).count r = f.count r
      exact List.count_filter (decide_eq_true h)
    · rw [if_neg h]
      refine List.count_eq_zero.mpr ?_
      intro hmem
      have hm2 : r ∈ f ∧ 2024 ≤ yearOfDay r.ds := by
        simpa [forecast_filtered, filterByCutoff, List.mem_filter] using hmem
      exact h hm2.2

/-- C6 counterexample: on the empty ForecastResult the code's filter is
total and simply returns the empty row list — it does not fail, and no
`EmptyForecastError` exists anywhere in the code. -/
theorem C6_empty_forecast_counterexample : forecast_filtered [] = [] := rfl

/-- C6 (amended): the Result Filter never fails; its output is empty
exactly when no forecast row's year reaches 2024 — in particular it
succeeds (with an empty table) on the empty ForecastResult, signalling no
error. -/
theorem C6_filter_total (f : List ForecastRow) :
    forecast_filtered f = [] ↔ ∀ r ∈ f, yearOfDay r.ds < 2024 := by
  simp [forecast_filtered, filterByCutoff, List.filter_eq_nil_iff, Nat.not_le]

/-- C8: filtering is antitone in the cutoff year — raising the cutoff never
increases the number of returned rows. -/
theorem C8_cutoff_monotone (c1 c2 : Nat) (h : c1 ≤ c2) (f : List ForecastRow) :
    (filterByCutoff c2 f).length ≤ (filterByCutoff c1 f).length := by
  induction f with
  | nil => exact Nat.le_refl 0
  | cons a t ih =>
    simp only [filterByCutoff, List.filter_cons] at ih ⊢
    by_cases h2 : c2 ≤ yearOfDay a.ds
    · have h1 : c1 ≤ yearOfDay a.ds := Nat.le_trans h h2
      simp only [decide_eq_true h1, decide_eq_true h2, if_true, List.length_cons]
      exact Nat.succ_le_succ ih
    · by_cases h1 : c1 ≤ yearOfDay a.ds
      · simp only [decide_eq_true h1, decide_eq_false h2, if_true, if_false,
          List.length_cons]
        exact Nat.le_trans ih (Nat.le_succ _)
      · simp only [decide_eq_false h1, decide_eq_false h2, if_false]
        exact ih

/-- C8 witness at cutoffs 2023 ≤ 2024 on the concrete sample forecast. -/
theorem C8_cutoff_monotone_witness :
    (filterByCutoff 2024 sampleForecast).length ≤ (filterByCutoff 2023 sampleForecast).length :=
  C8_cutoff_monotone 2023 2024 (by decide) sampleForecast

/-- On a weakly sorted list of day counts, the maximum taken inside
`make_future_dataframe` is the last element. -/
theorem historyMax_eq_getLast_of_sorted :
    ∀ l : List Nat, l.Sorted (· ≤ ·) → historyMax l = l.getLast?
  | [], _ => rfl
  | [_], _ => rfl
  | x :: y :: t, hs => by
    have h1 := (List.sorted_cons.mp hs).1
    have h2 := (List.sorted_cons.mp hs).2
    have IH := historyMax_eq_getLast_of_sorted (y :: t) h2
    obtain ⟨m, hm⟩ : ∃ m, (y :: t).getLast? = some m := by
      cases hgl : (y :: t).getLast? with
      | none => exact absurd (List.getLast?_eq_none_iff.mp hgl) (List.cons_ne_nil y t)
      | some m => exact ⟨m, rfl⟩
    have hmem : m ∈ y :: t := List.mem_of_getLast?_eq_some hm
    have hxm : x ≤ m := h1 m hmem
    have hm2 : historyMax (y :: t) = some m := by rw [IH, hm]
    show (match historyMax (y :: t) with
          | none => some x
          | some m => some (Nat.max x m)) = (x :: y :: t).getLast?
    rw [hm2, List.getLast?_cons_cons, hm]
    show some (Nat.max x m) = some m
    exact congrArg some (Nat.max_eq_right hxm)

/-- C5: for a canonical (strictly increasing) history whose last timestamp
is `last`, the future frame built with `periods=90` and daily frequency
ends exactly at `last + 90` days, and every date in it is either a
historical date or lies in the 90-day extension window. -/
theorem C5_future_extends_90_days (h : List Nat) (last : Nat)
    (hsorted : h.Sorted (· < ·)) (hlast : h.getLast? = some last) :
    (make_future_dataframe h 90).getLast? = some (last + 90) ∧
    ∀ d ∈ make_future_dataframe h 90, d ∈ h ∨ (last < d ∧ d ≤ last + 90) := by
  have hle : h.Sorted (· ≤ ·) := hsorted.imp (fun hab => Nat.le_of_lt hab)
  have hmax : historyMax h = some last := by
    rw [historyMax_eq_getLast_of_sorted h hle, hlast]
  have hrw : make_future_dataframe h 90 =
      h ++ (List.range 90).map (fun i => last + 1 + i) := by
    simp only [make_future_dataframe, hmax]
  constructor
  · rw [hrw, List.getLast?_append, List.getLast?_map, List.getLast?_range]
    have h90 : last + 1 + 89 = last + 90 := by omega
    simp [Option.or, h90]
  · intro d hd
    rw [hrw] at hd
    rcases List.mem_append.mp hd with hmem | hmem
    · exact Or.inl hmem
    · obtain ⟨i, hi, rfl⟩ := List.mem_map.mp hmem
      have hi90 : i < 90 := List.mem_range.mp hi
      exact Or.inr ⟨by omega, by omega⟩

/-- C5 witness on the concrete two-day history [2023-12-30, 2023-12-31]. -/
theorem C5_future_extends_90_days_witness :
    (make_future_dataframe [19721, 19722] 90).getLast? = some (19722 + 90) ∧
    ∀ d ∈ make_future_dataframe [19721, 19722] 90,
      d ∈ [19721, 19722] ∨ (19722 < d ∧ d ≤ 19722 + 90) :=
  C5_future_extends_90_days [19721, 19722] 19722 (by simp [List.sorted_cons]) rfl
